import Mathlib

/-!
Verification of the sandman bed-control core: a shallow embedding of the
GPIO line registry (`gpio.py`), the per-actuator `Control` state machine
(`controls.py`), and the routine engine (`routines.py`), together with
proofs of the stated properties.

Modelling conventions:
* Timestamps are integers in nanoseconds, as produced by
  `Timer.get_current_time` (`timer.py`); the test timer sets the current
  time to `ms * 1000000`.  `Timer.get_time_since_ms` floor-divides the
  nanosecond difference by 1000000 (Python `//`), embedded with `Int.fdiv`.
* The timer is passed explicitly: every operation that reads the clock
  takes the current reading `now : Int` as an argument.
* The GPIO manager is embedded in simulation mode (`is_live_mode = False`,
  no chip), the configuration in which the whole core is exercised; in
  that mode the registry state is exactly the set of acquired line keys
  (Python dict with `None` values, insertion ordered), modelled as a
  `List Int` of keys.  `set_line_active` / `set_line_inactive` only check
  membership and report success, changing no registry state.
* Methods that raise on misuse (`process` / `set_desired_state` on an
  uninitialized control, indexing a missing step) return `Option`,
  `none` standing for the raised exception.
-/

namespace Sandman

/-- Embeds `Timer.get_time_since_ms` from `timer.py`: the difference between the
current time and another time in nanoseconds, floor-divided (Python `//`)
by 1000000 to give milliseconds. -/
def get_time_since_ms (current_time_ns : Int) (other_time : Int) : Int :=
  (current_time_ns - other_time).fdiv 1000000

/-- The GPIO manager of `gpio.py` in simulation mode: `initialized` flag
and the insertion-ordered keys of the `__line_requests` dict. -/
structure GPIOManager where
  initialized : Bool
  lineRequests : List Int
  deriving Repr, DecidableEq

/-- Embeds `GPIOManager.acquire_output_line`: fails if not initialized or the
line is already acquired; otherwise records ownership (appending the new
dict key). -/
def GPIOManager.acquire_output_line (g : GPIOManager) (line : Int) :
    Bool × GPIOManager :=
  if g.initialized = false then (false, g)
  else if line ∈ g.lineRequests then (false, g)
  else (true, { g with lineRequests := g.lineRequests ++ [line] })

/-- Embeds `GPIOManager.release_output_line`: fails if the line is not acquired;
otherwise removes it from the ownership mapping. -/
def GPIOManager.release_output_line (g : GPIOManager) (line : Int) :
    Bool × GPIOManager :=
  if line ∈ g.lineRequests then
    (true, { g with lineRequests := g.lineRequests.erase line })
  else (false, g)

/-- Embeds `GPIOManager.set_line_active` in simulation mode: succeeds exactly
when the line is acquired; no registry state changes. -/
def GPIOManager.set_line_active (g : GPIOManager) (line : Int) : Bool :=
  decide (line ∈ g.lineRequests)

/-- Embeds `GPIOManager.set_line_inactive` in simulation mode: succeeds exactly
when the line is acquired; no registry state changes. -/
def GPIOManager.set_line_inactive (g : GPIOManager) (line : Int) : Bool :=
  decide (line ∈ g.lineRequests)

/-- Embeds `Control.State` from `controls.py`. -/
inductive ControlState where
  | IDLE
  | MOVE_UP
  | MOVE_DOWN
  | COOL_DOWN
  deriving Repr, DecidableEq

/-- The mutable state of a `Control` (`controls.py`).  `stateStartTime`
is `__state_start_time`, assigned on every state transition; the Python
constructor leaves it unassigned and it is read only in states reachable
through a transition, so the initial value is immaterial (0 here). -/
structure Control where
  state : ControlState
  desiredState : ControlState
  name : String
  upGpioLine : Int
  downGpioLine : Int
  movingDurationMs : Int
  coolDownDurationMs : Int
  initialized : Bool
  stateStartTime : Int
  deriving Repr, DecidableEq

/-- Embeds `Control.__init__`: idle, uninitialized, sentinel parameters. -/
def Control.new (name : String) : Control :=
  { state := ControlState.IDLE
    desiredState := ControlState.IDLE
    name := name
    upGpioLine := -1
    downGpioLine := -1
    movingDurationMs := -1
    coolDownDurationMs := -1
    initialized := false
    stateStartTime := 0 }

/-- Embeds `Control.__set_state`: append the transition notification (none when
entering IDLE), record the new state and reset the state-entry timestamp
to the current timer reading.  The GPIO side effects (`set_line_active` /
`set_line_inactive`) change no registry state in simulation mode, so the
registry is not threaded through. -/
def Control.set_state (now : Int) (c : Control) (notifs : List String)
    (state : ControlState) : Control × List String :=
  let notifs2 :=
    match state with
    | ControlState.MOVE_UP => notifs ++ ["Raising the " ++ c.name ++ "."]
    | ControlState.MOVE_DOWN => notifs ++ ["Lowering the " ++ c.name ++ "."]
    | ControlState.COOL_DOWN => notifs ++ [c.name ++ " stopped."]
    | _ => notifs
  ({ c with state := state, stateStartTime := now }, notifs2)

/-- Embeds `Control.__process_idle_state`. -/
def Control.process_idle_state (now : Int) (c : Control)
    (notifs : List String) : Control × List String :=
  if c.desiredState = ControlState.IDLE then (c, notifs)
  else if c.desiredState ≠ ControlState.MOVE_UP ∧
      c.desiredState ≠ ControlState.MOVE_DOWN then
    ({ c with desiredState := ControlState.IDLE }, notifs)
  else Control.set_state now c notifs c.desiredState

/-- Embeds `Control.__process_moving_states`: an immediate transition when the
desired state differs (to the other moving state, or to COOL_DOWN when
idle is desired); otherwise the automatic timed transition to COOL_DOWN,
forcing the desired state to IDLE.  A differing desired state that
matches no `match` case (COOL_DOWN, unreachable through
`set_desired_state`) falls through to the timed check, as in the Python
`match` statement. -/
def Control.process_moving_states (now : Int) (c : Control)
    (notifs : List String) : Control × List String :=
  if c.desiredState ≠ c.state ∧
      (c.desiredState = ControlState.MOVE_UP ∨
        c.desiredState = ControlState.MOVE_DOWN) then
    Control.set_state now c notifs c.desiredState
  else if c.desiredState ≠ c.state ∧ c.desiredState = ControlState.IDLE then
    Control.set_state now c notifs ControlState.COOL_DOWN
  else
    let elapsed_time_ms := get_time_since_ms now c.stateStartTime
    if elapsed_time_ms < c.movingDurationMs then (c, notifs)
    else
      Control.set_state now { c with desiredState := ControlState.IDLE }
        notifs ControlState.COOL_DOWN

/-- Embeds `Control.__process_cool_down_state`: ignores the desired state; once
the elapsed time reaches the cool-down duration, forces the desired state
to IDLE and transitions to IDLE. -/
def Control.process_cool_down_state (now : Int) (c : Control)
    (notifs : List String) : Control × List String :=
  let elapsed_time_ms := get_time_since_ms now c.stateStartTime
  if elapsed_time_ms < c.coolDownDurationMs then (c, notifs)
  else
    Control.set_state now { c with desiredState := ControlState.IDLE }
      notifs ControlState.IDLE

/-- Embeds `Control.process`: raises (`none`) on an uninitialized control,
otherwise dispatches on the current state. -/
def Control.process (now : Int) (c : Control) (notifs : List String) :
    Option (Control × List String) :=
  if c.initialized = false then none
  else
    some (match c.state with
      | ControlState.IDLE => Control.process_idle_state now c notifs
      | ControlState.MOVE_UP => Control.process_moving_states now c notifs
      | ControlState.MOVE_DOWN => Control.process_moving_states now c notifs
      | ControlState.COOL_DOWN => Control.process_cool_down_state now c notifs)

/-- Embeds `Control.set_desired_state`: raises (`none`) on an uninitialized
control; a COOL_DOWN request is silently ignored; otherwise records the
desired state. -/
def Control.set_desired_state (c : Control) (state : ControlState) :
    Option Control :=
  if c.initialized = false then none
  else if state = ControlState.COOL_DOWN then some c
  else some { c with desiredState := state }

/-- Embeds the initialize method of Control from controls.py (renamed
here to init): validation (already initialized, negative or
equal lines, moving duration below 1, negative cool-down), then the two
line acquisitions, rolling the up line back when the down line fails.
The Python code stores the four parameters before attempting
acquisition, so they are updated even on acquisition failure, while
`__initialized` and `__state` are untouched.  Returns
(success, control, registry). -/
def Control.init (c : Control) (g : GPIOManager)
    (up_gpio_line down_gpio_line moving_duration_ms cool_down_duration_ms :
      Int) : Bool × Control × GPIOManager :=
  if c.initialized = true then (false, c, g)
  else if up_gpio_line < 0 then (false, c, g)
  else if down_gpio_line < 0 then (false, c, g)
  else if up_gpio_line = down_gpio_line then (false, c, g)
  else if moving_duration_ms < 1 then (false, c, g)
  else if cool_down_duration_ms < 0 then (false, c, g)
  else
    let c2 := { c with
      upGpioLine := up_gpio_line
      downGpioLine := down_gpio_line
      movingDurationMs := moving_duration_ms
      coolDownDurationMs := cool_down_duration_ms }
    match GPIOManager.acquire_output_line g up_gpio_line with
    | (false, g2) => (false, c2, g2)
    | (true, g2) =>
      match GPIOManager.acquire_output_line g2 down_gpio_line with
      | (false, g3) =>
        (false, c2, (GPIOManager.release_output_line g3 up_gpio_line).2)
      | (true, g3) => (true, { c2 with initialized := true }, g3)

/-- Embeds `MoveControlCommand.Direction` from `commands.py`. -/
inductive Direction where
  | UP
  | DOWN
  deriving Repr, DecidableEq

/-- Embeds `Direction.as_string`. -/
def Direction.as_string : Direction → String
  | Direction.UP => "up"
  | Direction.DOWN => "down"

/-- The move-control command from `commands.py` (named `ControlCommand`
where `routines.py` and `controls.py` construct and consume it): control
name, direction and provenance, compared structurally. -/
structure ControlCommand where
  control_name : String
  direction : Direction
  source : String
  deriving Repr, DecidableEq

/-- Embeds `RoutineDesc.Step` from `routines.py`. -/
structure Step where
  delay_ms : Int
  control_name : String
  move_direction : Direction
  deriving Repr, DecidableEq

/-- Embeds `RoutineDesc` from `routines.py`. -/
structure RoutineDesc where
  name : String
  is_looping : Bool
  steps : List Step
  deriving Repr, DecidableEq

/-- A running `Routine` from `routines.py`: the description, the finished
flag, the current step index and the step-entry timestamp. -/
structure Routine where
  desc : RoutineDesc
  is_finished : Bool
  step_index : Nat
  step_start_time : Int
  deriving Repr, DecidableEq

/-- Embeds `Routine.__init__(desc, timer)`: running, step index 0, step-entry
timestamp set to the current timer reading. -/
def Routine.new (desc : RoutineDesc) (now : Int) : Routine :=
  { desc := desc
    is_finished := false
    step_index := 0
    step_start_time := now }

/-- Embeds `Routine.__advance_step`: reset the step-entry timestamp, increment
the step index; past the end, wrap to 0 when looping, else finish. -/
def Routine.advance_step (now : Int) (r : Routine) : Routine :=
  let r2 := { r with step_start_time := now, step_index := r.step_index + 1 }
  if r2.step_index < r.desc.steps.length then r2
  else if r.desc.is_looping = true then { r2 with step_index := 0 }
  else { r2 with is_finished := true }

/-- Embeds `Routine.process`: no-op when finished; with zero steps, finish
immediately when non-looping; otherwise wait until the delay of the
current step has elapsed (strict `<` keeps waiting), then append exactly one
move-control command with provenance "routine" and advance.  `none`
models the `IndexError` an out-of-range step index would raise. -/
def Routine.process (now : Int) (r : Routine)
    (command_list : List ControlCommand) :
    Option (Routine × List ControlCommand) :=
  if r.is_finished = true then some (r, command_list)
  else
    let steps := r.desc.steps
    if steps.length = 0 then
      if r.desc.is_looping = false then
        some ({ r with is_finished := true }, command_list)
      else some (r, command_list)
    else
      match steps[r.step_index]? with
      | none => none
      | some step =>
        let elapsed_time_ms := get_time_since_ms now r.step_start_time
        if elapsed_time_ms < step.delay_ms then some (r, command_list)
        else
          let command : ControlCommand :=
            { control_name := step.control_name
              direction := step.move_direction
              source := "routine" }
          some (Routine.advance_step now r, command_list ++ [command])

/-- A sequence of `Routine.process` calls at the given timer readings,
threading the routine and the command list. -/
def Routine.run_processes (nows : List Int) (r : Routine)
    (command_list : List ControlCommand) :
    Option (Routine × List ControlCommand) :=
  match nows with
  | [] => some (r, command_list)
  | now :: rest =>
    match Routine.process now r command_list with
    | none => none
    | some (r2, cmds2) => Routine.run_processes rest r2 cmds2

/-- Embeds `RoutineCommand.Action` from `commands.py`. -/
inductive RoutineAction where
  | START
  | STOP
  deriving Repr, DecidableEq

/-- Embeds `RoutineAction.as_string`. -/
def RoutineAction.as_string : RoutineAction → String
  | RoutineAction.START => "start"
  | RoutineAction.STOP => "stop"

/-- Embeds `RoutineCommand` from `commands.py`. -/
structure RoutineCommand where
  routine_name : String
  action : RoutineAction
  deriving Repr, DecidableEq

/-- Embeds `RoutineManager` state from `routines.py`: the loaded descriptions
(`__descs`) and the running routines (`__routines`), both name-keyed
insertion-ordered dicts modelled as association lists. -/
structure RoutineManager where
  descs : List (String × RoutineDesc)
  routines : List (String × Routine)
  deriving Repr, DecidableEq

/-- Embeds `RoutineManager.num_running`. -/
def RoutineManager.num_running (m : RoutineManager) : Nat :=
  m.routines.length

/-- Embeds `RoutineManager.__start_routine`: refuse when already running, then
when no description with that name is loaded; otherwise construct and
record a running `Routine`. -/
def RoutineManager.start_routine (m : RoutineManager) (now : Int)
    (routine_name : String) : String × RoutineManager :=
  if (m.routines.lookup routine_name).isSome then
    ("The " ++ routine_name ++ " routine is already running.", m)
  else
    match m.descs.lookup routine_name with
    | none => ("There is no " ++ routine_name ++ " routine.", m)
    | some desc =>
      ("Started the " ++ routine_name ++ " routine.",
        { m with routines :=
            m.routines ++ [(routine_name, Routine.new desc now)] })

/-- Embeds `RoutineManager.__stop_routine`: refuse when not running, else
remove the running instance. -/
def RoutineManager.stop_routine (m : RoutineManager)
    (routine_name : String) : String × RoutineManager :=
  if (m.routines.lookup routine_name).isSome then
    ("Stopped the " ++ routine_name ++ " routine.",
      { m with routines :=
          m.routines.filter (fun p => p.1 ≠ routine_name) })
  else ("The " ++ routine_name ++ " routine is not running.", m)

/-- Embeds `RoutineManager.process_command`: records the routine event in the
report journal (modelled as a list of (routine name, action string)
pairs) before delegating to start/stop — also in the failure cases.
Returns (notification, manager, journal). -/
def RoutineManager.process_command (m : RoutineManager)
    (events : List (String × String)) (now : Int)
    (command : RoutineCommand) :
    String × RoutineManager × List (String × String) :=
  match command.action with
  | RoutineAction.START =>
    let events2 := events ++
      [(command.routine_name, RoutineAction.as_string RoutineAction.START)]
    let res := RoutineManager.start_routine m now command.routine_name
    (res.1, res.2, events2)
  | RoutineAction.STOP =>
    let events2 := events ++
      [(command.routine_name, RoutineAction.as_string RoutineAction.STOP)]
    let res := RoutineManager.stop_routine m command.routine_name
    (res.1, res.2, events2)

/-- An operation applied to a `Control`: a `set_desired_state` call or a
`process` call at a given timer reading (the notification list passed to
`process` does not influence the control, so `[]` is passed). -/
inductive ControlOp where
  | setDesired (state : ControlState)
  | procAt (now : Int)
  deriving Repr, DecidableEq

/-- Apply one `ControlOp`. -/
def Control.run_op (c : Control) : ControlOp → Option Control
  | ControlOp.setDesired s => Control.set_desired_state c s
  | ControlOp.procAt now => (Control.process now c []).map Prod.fst

/-- Apply a sequence of `ControlOp`s. -/
def Control.run_ops (c : Control) : List ControlOp → Option Control
  | [] => some c
  | op :: rest =>
    match Control.run_op c op with
    | none => none
    | some c2 => Control.run_ops c2 rest

/-- An operation applied to the GPIO registry: an
`acquire_output_line` or `release_output_line` call. -/
inductive GpioOp where
  | acq (line : Int)
  | rel (line : Int)
  deriving Repr, DecidableEq

/-- Apply one `GpioOp`, keeping the resulting registry state. -/
def GPIOManager.run_op (g : GPIOManager) : GpioOp → GPIOManager
  | GpioOp.acq line => (GPIOManager.acquire_output_line g line).2
  | GpioOp.rel line => (GPIOManager.release_output_line g line).2

/-- Apply a sequence of `GpioOp`s. -/
def GPIOManager.run_ops (g : GPIOManager) : List GpioOp → GPIOManager
  | [] => g
  | op :: rest => GPIOManager.run_ops (GPIOManager.run_op g op) rest

/-! ## Helper lemmas about the `Control` state machine -/

/-- In a moving state with the desired state equal to the current state,
`process` is the identity while the elapsed time is below the moving
duration. -/
lemma process_moving_early (c : Control) (now : Int) (notifs : List String)
    (hinit : c.initialized = true)
    (hmv : c.state = ControlState.MOVE_UP ∨ c.state = ControlState.MOVE_DOWN)
    (hdes : c.desiredState = c.state)
    (hlt : get_time_since_ms now c.stateStartTime < c.movingDurationMs) :
    Control.process now c notifs = some (c, notifs) := by
  rcases hmv with h | h <;>
    simp [Control.process, hinit, h, Control.process_moving_states, hdes, hlt]

/-- In a moving state with the desired state equal to the current state,
once the elapsed time reaches the moving duration `process` forces the
desired state to IDLE and transitions to COOL_DOWN, resetting the
state-entry timestamp and emitting the stop notification. -/
lemma process_moving_due (c : Control) (now : Int) (notifs : List String)
    (hinit : c.initialized = true)
    (hmv : c.state = ControlState.MOVE_UP ∨ c.state = ControlState.MOVE_DOWN)
    (hdes : c.desiredState = c.state)
    (hge : c.movingDurationMs ≤ get_time_since_ms now c.stateStartTime) :
    Control.process now c notifs =
      some ({ c with
                desiredState := ControlState.IDLE
                state := ControlState.COOL_DOWN
                stateStartTime := now },
            notifs ++ [c.name ++ " stopped."]) := by
  rcases hmv with h | h <;>
    simp [Control.process, hinit, h, Control.process_moving_states, hdes,
      Control.set_state, not_lt.mpr hge]

/-- In state COOL_DOWN, `process` is the identity while the elapsed time
is below the cool-down duration, whatever the desired state. -/
lemma process_cool_down_early (c : Control) (now : Int)
    (notifs : List String) (hinit : c.initialized = true)
    (hst : c.state = ControlState.COOL_DOWN)
    (hlt : get_time_since_ms now c.stateStartTime < c.coolDownDurationMs) :
    Control.process now c notifs = some (c, notifs) := by
  simp [Control.process, hinit, hst, Control.process_cool_down_state, hlt]

/-- In state COOL_DOWN, once the elapsed time reaches the cool-down
duration `process` forces the desired state to IDLE and transitions to
IDLE (no notification). -/
lemma process_cool_down_due (c : Control) (now : Int)
    (notifs : List String) (hinit : c.initialized = true)
    (hst : c.state = ControlState.COOL_DOWN)
    (hge : c.coolDownDurationMs ≤ get_time_since_ms now c.stateStartTime) :
    Control.process now c notifs =
      some ({ c with
                desiredState := ControlState.IDLE
                state := ControlState.IDLE
                stateStartTime := now },
            notifs) := by
  simp [Control.process, hinit, hst, Control.process_cool_down_state,
    Control.set_state, not_lt.mpr hge]

/-- In state IDLE with desired state IDLE, `process` is the identity. -/
lemma process_idle_idle (c : Control) (now : Int) (notifs : List String)
    (hinit : c.initialized = true) (hst : c.state = ControlState.IDLE)
    (hdes : c.desiredState = ControlState.IDLE) :
    Control.process now c notifs = some (c, notifs) := by
  simp [Control.process, hinit, hst, Control.process_idle_state, hdes]

/-! ## C1 -/

/-- C1.  For every initialized Control in state MOVE_UP or MOVE_DOWN
whose desired state equals its current state, `process` leaves it
unchanged while the elapsed time since state entry is strictly less than
the moving duration, and as soon as the elapsed time is greater than or
equal to the moving duration (inclusive comparison) it forces the
desired state to IDLE and transitions to COOL_DOWN. -/
theorem control_moving_timed_transition (c : Control) (now : Int)
    (notifs : List String) (hinit : c.initialized = true)
    (hmv : c.state = ControlState.MOVE_UP ∨ c.state = ControlState.MOVE_DOWN)
    (hdes : c.desiredState = c.state) :
    (get_time_since_ms now c.stateStartTime < c.movingDurationMs →
      Control.process now c notifs = some (c, notifs)) ∧
    (c.movingDurationMs ≤ get_time_since_ms now c.stateStartTime →
      Control.process now c notifs =
        some ({ c with
                  desiredState := ControlState.IDLE
                  state := ControlState.COOL_DOWN
                  stateStartTime := now },
              notifs ++ [c.name ++ " stopped."])) :=
  ⟨fun hlt => process_moving_early c now notifs hinit hmv hdes hlt,
   fun hge => process_moving_due c now notifs hinit hmv hdes hge⟩

/-- The control used to witness C1: moving up, desired state moving up,
moving duration 5 ms, state entered at time 0. -/
def c1w : Control :=
  { state := ControlState.MOVE_UP
    desiredState := ControlState.MOVE_UP
    name := "back"
    upGpioLine := 1
    downGpioLine := 2
    movingDurationMs := 5
    coolDownDurationMs := 3
    initialized := true
    stateStartTime := 0 }

/-- Witness for C1: processing `c1w` at exactly the 5 ms boundary
transitions to COOL_DOWN with desired state IDLE. -/
theorem control_moving_timed_transition_witness :
    Control.process 5000000 c1w [] =
      some ({ c1w with
                desiredState := ControlState.IDLE
                state := ControlState.COOL_DOWN
                stateStartTime := 5000000 },
            [] ++ [c1w.name ++ " stopped."]) :=
  (control_moving_timed_transition c1w 5000000 [] rfl (Or.inl rfl) rfl).2
    (by decide)

/-! ## C4 -/

/-- C4.  For every initialized Control in a moving state, setting the
desired state to the opposite moving state and calling `process` at time
T transitions immediately to that state and resets the state-entry
timestamp to T, so the full moving duration (measured from T) must
elapse again before the automatic transition to COOL_DOWN: processing
before T + duration leaves the control unchanged, and processing at or
after it transitions to COOL_DOWN. -/
theorem control_reversal_restarts_full_duration (c : Control) (T : Int)
    (notifs : List String) (t : ControlState)
    (hinit : c.initialized = true)
    (hpair : (c.state = ControlState.MOVE_UP ∧ t = ControlState.MOVE_DOWN) ∨
      (c.state = ControlState.MOVE_DOWN ∧ t = ControlState.MOVE_UP)) :
    ∃ c2 c3 notifs3,
      Control.set_desired_state c t = some c2 ∧
      Control.process T c2 notifs = some (c3, notifs3) ∧
      c3.state = t ∧ c3.desiredState = t ∧ c3.stateStartTime = T ∧
      c3.movingDurationMs = c.movingDurationMs ∧
      (∀ (now : Int) (notifs2 : List String),
        get_time_since_ms now T < c.movingDurationMs →
        Control.process now c3 notifs2 = some (c3, notifs2)) ∧
      (∀ (now : Int) (notifs2 : List String),
        c.movingDurationMs ≤ get_time_since_ms now T →
        Control.process now c3 notifs2 =
          some ({ c3 with
                    desiredState := ControlState.IDLE
                    state := ControlState.COOL_DOWN
                    stateStartTime := now },
                notifs2 ++ [c.name ++ " stopped."])) := by
  rcases hpair with ⟨hs, ht⟩ | ⟨hs, ht⟩ <;> subst ht
  · refine ⟨{ c with desiredState := ControlState.MOVE_DOWN },
      { c with
          desiredState := ControlState.MOVE_DOWN
          state := ControlState.MOVE_DOWN
          stateStartTime := T },
      notifs ++ ["Lowering the " ++ c.name ++ "."], ?_, ?_, rfl, rfl, rfl,
      rfl, ?_, ?_⟩
    · simp [Control.set_desired_state, hinit]
    · simp [Control.process, hinit, hs, Control.process_moving_states,
        Control.set_state]
    · intro now notifs2 hlt
      exact process_moving_early _ now notifs2 hinit (Or.inr rfl) rfl hlt
    · intro now notifs2 hge
      exact process_moving_due _ now notifs2 hinit (Or.inr rfl) rfl hge
  · refine ⟨{ c with desiredState := ControlState.MOVE_UP },
      { c with
          desiredState := ControlState.MOVE_UP
          state := ControlState.MOVE_UP
          stateStartTime := T },
      notifs ++ ["Raising the " ++ c.name ++ "."], ?_, ?_, rfl, rfl, rfl,
      rfl, ?_, ?_⟩
    · simp [Control.set_desired_state, hinit]
    · simp [Control.process, hinit, hs, Control.process_moving_states,
        Control.set_state]
    · intro now notifs2 hlt
      exact process_moving_early _ now notifs2 hinit (Or.inl rfl) rfl hlt
    · intro now notifs2 hge
      exact process_moving_due _ now notifs2 hinit (Or.inl rfl) rfl hge

/-- The control used to witness C4: moving up for 5 ms starting at time
0, reversed at 1 ms. -/
def c4w : Control :=
  { state := ControlState.MOVE_UP
    desiredState := ControlState.MOVE_UP
    name := "legs"
    upGpioLine := 3
    downGpioLine := 4
    movingDurationMs := 5
    coolDownDurationMs := 3
    initialized := true
    stateStartTime := 0 }

/-- Witness for C4: reversing `c4w` to MOVE_DOWN at time 1 ms restarts
the full 5 ms moving duration from that point. -/
theorem control_reversal_restarts_full_duration_witness :
    ∃ c2 c3 notifs3,
      Control.set_desired_state c4w ControlState.MOVE_DOWN = some c2 ∧
      Control.process 1000000 c2 [] = some (c3, notifs3) ∧
      c3.state = ControlState.MOVE_DOWN ∧
      c3.desiredState = ControlState.MOVE_DOWN ∧
      c3.stateStartTime = 1000000 ∧
      c3.movingDurationMs = c4w.movingDurationMs ∧
      (∀ (now : Int) (notifs2 : List String),
        get_time_since_ms now 1000000 < c4w.movingDurationMs →
        Control.process now c3 notifs2 = some (c3, notifs2)) ∧
      (∀ (now : Int) (notifs2 : List String),
        c4w.movingDurationMs ≤ get_time_since_ms now 1000000 →
        Control.process now c3 notifs2 =
          some ({ c3 with
                    desiredState := ControlState.IDLE
                    state := ControlState.COOL_DOWN
                    stateStartTime := now },
                notifs2 ++ [c4w.name ++ " stopped."])) :=
  control_reversal_restarts_full_duration c4w 1000000 []
    ControlState.MOVE_DOWN rfl (Or.inl ⟨rfl, rfl⟩)

/-! ## C5 -/

/-- Any sequence of `set_desired_state` calls and of `process` calls
made strictly before the cool-down duration has elapsed leaves a control
that is in COOL_DOWN in COOL_DOWN, with the state-entry timestamp and
the cool-down duration untouched. -/
lemma run_ops_cool_down_invariant (ops : List ControlOp) :
    ∀ c : Control, c.initialized = true →
    c.state = ControlState.COOL_DOWN →
    (∀ op ∈ ops, (∃ s, op = ControlOp.setDesired s) ∨
      (∃ t, op = ControlOp.procAt t ∧
        get_time_since_ms t c.stateStartTime < c.coolDownDurationMs)) →
    ∃ c2, Control.run_ops c ops = some c2 ∧ c2.initialized = true ∧
      c2.state = ControlState.COOL_DOWN ∧
      c2.stateStartTime = c.stateStartTime ∧
      c2.coolDownDurationMs = c.coolDownDurationMs := by
  induction ops with
  | nil =>
    intro c h1 h2 _
    exact ⟨c, rfl, h1, h2, rfl, rfl⟩
  | cons op rest ih =>
    intro c h1 h2 hops
    rcases hops op (List.mem_cons_self op rest) with ⟨s, rfl⟩ | ⟨t, rfl, hlt⟩
    · have hstep : ∃ c3, Control.run_op c (ControlOp.setDesired s) = some c3 ∧
          c3.initialized = true ∧ c3.state = ControlState.COOL_DOWN ∧
          c3.stateStartTime = c.stateStartTime ∧
          c3.coolDownDurationMs = c.coolDownDurationMs := by
        by_cases hs : s = ControlState.COOL_DOWN
        · exact ⟨c, by simp [Control.run_op, Control.set_desired_state, h1, hs],
            h1, h2, rfl, rfl⟩
        · exact ⟨{ c with desiredState := s },
            by simp [Control.run_op, Control.set_desired_state, h1, hs],
            h1, h2, rfl, rfl⟩
      obtain ⟨c3, hc3, h1', h2', hst', hcd'⟩ := hstep
      obtain ⟨c2, hrun, p1, p2, p3, p4⟩ := ih c3 h1' h2' (by
        intro op2 hop2
        rcases hops op2 (List.mem_cons_of_mem _ hop2) with h | ⟨t, ht, hlt⟩
        · exact Or.inl h
        · exact Or.inr ⟨t, ht, by rw [hst', hcd']; exact hlt⟩)
      exact ⟨c2, by simp [Control.run_ops, hc3, hrun], p1, p2,
        by rw [p3, hst'], by rw [p4, hcd']⟩
    · have hstep : Control.run_op c (ControlOp.procAt t) = some c := by
        simp [Control.run_op, process_cool_down_early c t [] h1 h2 hlt]
      obtain ⟨c2, hrun, p1, p2, p3, p4⟩ := ih c h1 h2 (by
        intro op2 hop2
        exact hops op2 (List.mem_cons_of_mem _ hop2))
      exact ⟨c2, by simp [Control.run_ops, hstep, hrun], p1, p2, p3, p4⟩

/-- C5.  For every initialized Control in state COOL_DOWN, no sequence
of `set_desired_state` calls and of `process` calls made while the
elapsed time since entering COOL_DOWN is strictly below the cool-down
duration changes the state; once the elapsed time is greater than or
equal to the cool-down duration, `process` forces the desired state to
IDLE and transitions to IDLE. -/
theorem control_cool_down_uninterruptible (c : Control)
    (hinit : c.initialized = true)
    (hst : c.state = ControlState.COOL_DOWN) :
    (∀ ops : List ControlOp,
      (∀ op ∈ ops, (∃ s, op = ControlOp.setDesired s) ∨
        (∃ t, op = ControlOp.procAt t ∧
          get_time_since_ms t c.stateStartTime < c.coolDownDurationMs)) →
      ∃ c2, Control.run_ops c ops = some c2 ∧
        c2.state = ControlState.COOL_DOWN) ∧
    (∀ (now : Int) (notifs : List String),
      c.coolDownDurationMs ≤ get_time_since_ms now c.stateStartTime →
      Control.process now c notifs =
        some ({ c with
                  desiredState := ControlState.IDLE
                  state := ControlState.IDLE
                  stateStartTime := now },
              notifs)) := by
  constructor
  · intro ops hops
    obtain ⟨c2, hrun, _, p2, _, _⟩ :=
      run_ops_cool_down_invariant ops c hinit hst hops
    exact ⟨c2, hrun, p2⟩
  · intro now notifs hge
    exact process_cool_down_due c now notifs hinit hst hge

/-- The control used to witness C5: cooling down for 3 ms starting at
time 0. -/
def c5w : Control :=
  { state := ControlState.COOL_DOWN
    desiredState := ControlState.IDLE
    name := "back"
    upGpioLine := 1
    downGpioLine := 2
    movingDurationMs := 5
    coolDownDurationMs := 3
    initialized := true
    stateStartTime := 0 }

/-- Witness for C5: desired-state changes and early processing at 1 ms
and 2 ms leave `c5w` in COOL_DOWN. -/
theorem control_cool_down_uninterruptible_witness :
    ∃ c2, Control.run_ops c5w
        [ControlOp.setDesired ControlState.MOVE_UP,
          ControlOp.procAt 1000000,
          ControlOp.setDesired ControlState.IDLE,
          ControlOp.procAt 2000000] = some c2 ∧
      c2.state = ControlState.COOL_DOWN :=
  (control_cool_down_uninterruptible c5w rfl rfl).1 _ (by
    intro op hop
    fin_cases hop
    · exact Or.inl ⟨ControlState.MOVE_UP, rfl⟩
    · exact Or.inr ⟨1000000, rfl, by decide⟩
    · exact Or.inl ⟨ControlState.IDLE, rfl⟩
    · exact Or.inr ⟨2000000, rfl, by decide⟩)

/-! ## C9 -/

/-- A control that is idle with desired state IDLE is a fixed point of
every sequence of `set_desired_state(COOL_DOWN)` and `process` calls. -/
lemma run_ops_idle_fixed (ops : List ControlOp) :
    ∀ c : Control, c.initialized = true → c.state = ControlState.IDLE →
    c.desiredState = ControlState.IDLE →
    (∀ op ∈ ops, op = ControlOp.setDesired ControlState.COOL_DOWN ∨
      ∃ t, op = ControlOp.procAt t) →
    Control.run_ops c ops = some c := by
  induction ops with
  | nil => intro c _ _ _ _; rfl
  | cons op rest ih =>
    intro c h1 h2 h3 hops
    have hstep : Control.run_op c op = some c := by
      rcases hops op (List.mem_cons_self op rest) with rfl | ⟨t, rfl⟩
      · simp [Control.run_op, Control.set_desired_state, h1]
      · simp [Control.run_op, process_idle_idle c t [] h1 h2 h3]
    rw [Control.run_ops, hstep]
    exact ih c h1 h2 h3 (fun op2 hop2 => hops op2 (List.mem_cons_of_mem _ hop2))

/-- C9.  For every initialized Control, `set_desired_state(COOL_DOWN)`
leaves the control unchanged (the request is silently ignored), and a
control in state IDLE with desired state IDLE — as a freshly initialized
control is — stays unchanged (in particular in state IDLE) under any
sequence of `set_desired_state(COOL_DOWN)` calls interleaved with
`process` calls. -/
theorem control_cool_down_request_ignored :
    (∀ c : Control, c.initialized = true →
      Control.set_desired_state c ControlState.COOL_DOWN = some c) ∧
    (∀ c : Control, c.initialized = true → c.state = ControlState.IDLE →
      c.desiredState = ControlState.IDLE →
      ∀ ops : List ControlOp,
        (∀ op ∈ ops, op = ControlOp.setDesired ControlState.COOL_DOWN ∨
          ∃ t, op = ControlOp.procAt t) →
        Control.run_ops c ops = some c) := by
  constructor
  · intro c h1
    simp [Control.set_desired_state, h1]
  · intro c h1 h2 h3 ops hops
    exact run_ops_idle_fixed ops c h1 h2 h3 hops

/-- The control used to witness C9: freshly initialized (the result of
a successful `Control.init` on a new control). -/
def c9w : Control :=
  (Control.init (Control.new "elevation")
    { initialized := true, lineRequests := [] } 5 19 4000 25).2.1

/-- Witness for C9: `c9w` is initialized, idle, and unchanged by a
COOL_DOWN request followed by processing. -/
theorem control_cool_down_request_ignored_witness :
    Control.set_desired_state c9w ControlState.COOL_DOWN = some c9w ∧
    Control.run_ops c9w
      [ControlOp.setDesired ControlState.COOL_DOWN,
        ControlOp.procAt 1000000] = some c9w :=
  ⟨control_cool_down_request_ignored.1 c9w (by decide),
   control_cool_down_request_ignored.2 c9w (by decide) (by decide) (by decide)
     _ (by
      intro op hop
      fin_cases hop
      · exact Or.inl rfl
      · exact Or.inr ⟨1000000, rfl⟩)⟩

/-! ## Helper lemmas about the GPIO registry -/

/-- A failed acquisition leaves the registry unchanged. -/
lemma acquire_fail_eq (g : GPIOManager) (line : Int) (g2 : GPIOManager)
    (h : GPIOManager.acquire_output_line g line = (false, g2)) : g2 = g := by
  unfold GPIOManager.acquire_output_line at h
  split_ifs at h <;> simp_all

/-- A successful acquisition appends the line (previously not owned) to
the ownership mapping. -/
lemma acquire_success_spec (g : GPIOManager) (line : Int)
    (g2 : GPIOManager)
    (h : GPIOManager.acquire_output_line g line = (true, g2)) :
    g2.lineRequests = g.lineRequests ++ [line] ∧
      line ∉ g.lineRequests ∧ g2.initialized = g.initialized := by
  unfold GPIOManager.acquire_output_line at h
  split_ifs at h with h1 h2
  · simp at h
  · simp at h
  · simp only [Prod.mk.injEq, true_and] at h
    subst h
    exact ⟨rfl, h2, rfl⟩

/-- Releasing an owned line erases it from the ownership mapping. -/
lemma release_lines (g : GPIOManager) (line : Int)
    (hmem : line ∈ g.lineRequests) :
    (GPIOManager.release_output_line g line).2.lineRequests =
      g.lineRequests.erase line := by
  simp [GPIOManager.release_output_line, hmem]

/-- Erasing a freshly appended element restores the original list. -/
lemma erase_append_self (l : List Int) (a : Int) (h : a ∉ l) :
    (l ++ [a]).erase a = l := by
  rw [List.erase_append_right _ h, List.erase_cons_head, List.append_nil]

/-- Whenever the initialize method fails, the registry ownership mapping,
the initialized flag and the state are as before the call. -/
lemma initialize_fail_invariant (c : Control) (g : GPIOManager)
    (up down mov cool : Int) (b : Bool) (c2 : Control) (g2 : GPIOManager)
    (heq : Control.init c g up down mov cool = (b, c2, g2))
    (hb : b = false) :
    g2.lineRequests = g.lineRequests ∧ c2.initialized = c.initialized ∧
      c2.state = c.state := by
  subst hb
  unfold Control.init at heq
  split_ifs at heq with h1 h2 h3 h4 h5 h6
  · simp_all
  · simp_all
  · simp_all
  · simp_all
  · simp_all
  · simp_all
  · split at heq
    · rename_i g2' hacq
      simp only [Prod.mk.injEq] at heq
      obtain ⟨-, hc2, hg2⟩ := heq
      subst hc2; subst hg2
      rw [acquire_fail_eq g up g2' hacq]
      exact ⟨rfl, rfl, rfl⟩
    · rename_i g2' hacq1
      split at heq
      · rename_i g3 hacq2
        simp only [Prod.mk.injEq] at heq
        obtain ⟨-, hc2, hg2⟩ := heq
        subst hc2; subst hg2
        obtain ⟨hl, hnot, -⟩ := acquire_success_spec g up g2' hacq1
        rw [acquire_fail_eq g2' down g3 hacq2]
        refine ⟨?_, rfl, rfl⟩
        rw [release_lines g2' up (by rw [hl]; simp), hl,
          erase_append_self _ _ hnot]
      · simp only [Prod.mk.injEq] at heq
        exact absurd heq.1 (by simp)

/-! ## C3 -/

/-- C3.  Whenever `Control.init` returns false — already
initialized, a negative line, equal lines, moving duration below 1,
negative cool-down duration, or an acquisition failure (with a
successful up-line acquisition rolled back when the down-line
acquisition fails) — the registry ownership mapping is the same after
the call as before, the initialized flag is unchanged (so an
uninitialized control remains uninitialized), and the state is left
unchanged. -/
theorem control_initialize_failure_preserves_registry_and_state
    (c : Control) (g : GPIOManager) (up down mov cool : Int)
    (hfail : (Control.init c g up down mov cool).1 = false) :
    (Control.init c g up down mov cool).2.2.lineRequests =
      g.lineRequests ∧
    (Control.init c g up down mov cool).2.1.initialized =
      c.initialized ∧
    (Control.init c g up down mov cool).2.1.state = c.state :=
  initialize_fail_invariant c g up down mov cool _ _ _ rfl hfail

/-- The registry used to witness C3: line 7 already acquired, so the
down-line acquisition fails after the up line was acquired and must be
rolled back. -/
def c3wg : GPIOManager := { initialized := true, lineRequests := [7] }

/-- Witness for C3: initializing with down line 7 (already owned) fails
and restores the registry, leaving the control uninitialized and idle. -/
theorem control_initialize_failure_witness :
    (Control.init (Control.new "back") c3wg 3 7 5 0).2.2.lineRequests
      = c3wg.lineRequests ∧
    (Control.init (Control.new "back") c3wg 3 7 5 0).2.1.initialized
      = (Control.new "back").initialized ∧
    (Control.init (Control.new "back") c3wg 3 7 5 0).2.1.state
      = (Control.new "back").state :=
  control_initialize_failure_preserves_registry_and_state
    (Control.new "back") c3wg 3 7 5 0 (by decide)

/-! ## C6 -/

/-- Acquisition preserves distinctness of the owned lines. -/
lemma acquire_nodup (g : GPIOManager) (line : Int)
    (h : g.lineRequests.Nodup) :
    (GPIOManager.acquire_output_line g line).2.lineRequests.Nodup := by
  unfold GPIOManager.acquire_output_line
  split_ifs with h1 h2
  · exact h
  · exact h
  · simp [List.nodup_append, h, h2, List.disjoint_singleton]

/-- Release preserves distinctness of the owned lines. -/
lemma release_nodup (g : GPIOManager) (line : Int)
    (h : g.lineRequests.Nodup) :
    (GPIOManager.release_output_line g line).2.lineRequests.Nodup := by
  unfold GPIOManager.release_output_line
  split_ifs with h1
  · exact h.erase line
  · exact h

/-- Distinctness of the owned lines is an invariant of every sequence of
acquire and release calls. -/
lemma run_ops_nodup (ops : List GpioOp) :
    ∀ g : GPIOManager, g.lineRequests.Nodup →
      (GPIOManager.run_ops g ops).lineRequests.Nodup := by
  induction ops with
  | nil => intro g h; exact h
  | cons op rest ih =>
    intro g h
    cases op with
    | acq line => exact ih _ (acquire_nodup g line h)
    | rel line => exact ih _ (release_nodup g line h)

/-- Acquiring a line that is already owned fails and changes nothing. -/
lemma acquire_mem_fail (g : GPIOManager) (line : Int)
    (hmem : line ∈ g.lineRequests) :
    GPIOManager.acquire_output_line g line = (false, g) := by
  unfold GPIOManager.acquire_output_line
  split_ifs with h1
  · rfl
  · rfl

/-- Initializing a control over a line the registry already owns
fails. -/
lemma initialize_overlap_fails (c : Control) (g : GPIOManager)
    (up down mov cool : Int)
    (hover : up ∈ g.lineRequests ∨ down ∈ g.lineRequests) :
    (Control.init c g up down mov cool).1 = false := by
  unfold Control.init
  split_ifs with h1 h2 h3 h4 h5 h6
  · rfl
  · rfl
  · rfl
  · rfl
  · rfl
  · rfl
  · rcases hover with hup | hdown
    · rw [acquire_mem_fail g up hup]
    · rcases hacq : GPIOManager.acquire_output_line g up with ⟨b, g2⟩
      cases b
      · rfl
      · obtain ⟨hl, -, -⟩ := acquire_success_spec g up g2 hacq
        have hdmem : down ∈ g2.lineRequests := by
          rw [hl]; exact List.mem_append_left _ hdown
        simp [acquire_mem_fail g2 down hdmem]

/-- C6.  The GPIO registry maintains exclusive line ownership: the owned
lines stay pairwise distinct under every sequence of
`acquire_output_line` and `release_output_line` calls,
`acquire_output_line` on an already-acquired line returns false and
leaves the ownership mapping unchanged, and initializing a Control whose
up or down line overlaps an owned line fails and leaves the acquired
set of the registry unchanged (the other controls, being separate values, are
untouched). -/
theorem gpio_exclusive_line_ownership :
    (∀ g : GPIOManager, g.lineRequests.Nodup →
      ∀ ops : List GpioOp,
        (GPIOManager.run_ops g ops).lineRequests.Nodup) ∧
    (∀ (g : GPIOManager) (line : Int), line ∈ g.lineRequests →
      GPIOManager.acquire_output_line g line = (false, g)) ∧
    (∀ (c : Control) (g : GPIOManager) (up down mov cool : Int),
      (up ∈ g.lineRequests ∨ down ∈ g.lineRequests) →
      (Control.init c g up down mov cool).1 = false ∧
      (Control.init c g up down mov cool).2.2.lineRequests =
        g.lineRequests) := by
  refine ⟨fun g h ops => run_ops_nodup ops g h,
    fun g line hmem => acquire_mem_fail g line hmem,
    fun c g up down mov cool hover => ?_⟩
  have hfail := initialize_overlap_fails c g up down mov cool hover
  exact ⟨hfail,
    (initialize_fail_invariant c g up down mov cool _ _ _ rfl hfail).1⟩

/-- The registry used to witness C6: lines 1 and 2 owned by the first
control. -/
def c6wg : GPIOManager := { initialized := true, lineRequests := [1, 2] }

/-- Witness for C6: distinctness is kept across an op sequence,
re-acquiring line 1 fails without side effects, and a second control
overlapping line 2 fails to initialize with the registry unchanged. -/
theorem gpio_exclusive_line_ownership_witness :
    (GPIOManager.run_ops c6wg
      [GpioOp.acq 1, GpioOp.acq 3, GpioOp.rel 2]).lineRequests.Nodup ∧
    GPIOManager.acquire_output_line c6wg 1 = (false, c6wg) ∧
    ((Control.init (Control.new "legs") c6wg 2 5 4000 25).1 = false ∧
      (Control.init
        (Control.new "legs") c6wg 2 5 4000 25).2.2.lineRequests =
        c6wg.lineRequests) :=
  ⟨gpio_exclusive_line_ownership.1 c6wg (by decide) _,
   gpio_exclusive_line_ownership.2.1 c6wg 1 (by decide),
   gpio_exclusive_line_ownership.2.2 (Control.new "legs") c6wg 2 5 4000 25
     (Or.inl (by decide))⟩

/-! ## C2 -/

/-- The two-step description of the C2 scenario:
steps [(delay 1 ms, back, up), (delay 2 ms, back, down)], non-looping. -/
def c2_desc : RoutineDesc :=
  { name := "test"
    is_looping := false
    steps :=
      [{ delay_ms := 1, control_name := "back",
          move_direction := Direction.UP },
        { delay_ms := 2, control_name := "back",
          move_direction := Direction.DOWN }] }

/-- The routine of the C2 scenario, started at t = 0. -/
def c2_r0 : Routine := Routine.new c2_desc 0

/-- The routine of the C2 scenario after the first step fired at
t = 1 ms. -/
def c2_r1 : Routine :=
  { c2_r0 with step_index := 1, step_start_time := 1000000 }

/-- The routine of the C2 scenario after the second step fired at
t = 3 ms: finished. -/
def c2_r2 : Routine :=
  { c2_r1 with is_finished := true, step_index := 2, step_start_time := 3000000 }

/-- The command emitted by the first step of the C2 scenario. -/
def c2_cmd_up : ControlCommand :=
  { control_name := "back", direction := Direction.UP, source := "routine" }

/-- The command emitted by the second step of the C2 scenario. -/
def c2_cmd_down : ControlCommand :=
  { control_name := "back", direction := Direction.DOWN,
    source := "routine" }

/-- C2.  For the non-looping routine over
[(delay 1, back, up), (delay 2, back, down)] started at t = 0 with the
test timer (which reports t ms as t * 1000000 ns): `process` at t = 0
appends no command; `process` at t = 1 appends exactly
MoveControl(back, up, "routine"); a second `process` at t = 1 appends
nothing; `process` at t = 3 appends exactly
MoveControl(back, down, "routine") and marks the routine finished. -/
theorem routine_two_step_scenario :
    Routine.process 0 c2_r0 [] = some (c2_r0, []) ∧
    Routine.process 1000000 c2_r0 [] = some (c2_r1, [c2_cmd_up]) ∧
    Routine.process 1000000 c2_r1 [] = some (c2_r1, []) ∧
    Routine.process 3000000 c2_r1 [] = some (c2_r2, [c2_cmd_down]) ∧
    c2_r2.is_finished = true :=
  ⟨by decide, by decide, by decide, by decide, rfl⟩

/-! ## C8 -/

/-- C8.  For a routine whose description has zero steps: when
non-looping, any `process` call on the unfinished routine marks it
finished and appends no command; when looping, every sequence of
`process` calls leaves the routine untouched — never finished, never
emitting. -/
theorem routine_empty_steps_behavior (r : Routine)
    (hsteps : r.desc.steps = []) (hrun : r.is_finished = false) :
    (r.desc.is_looping = false →
      ∀ (now : Int) (cmds : List ControlCommand),
        Routine.process now r cmds =
          some ({ r with is_finished := true }, cmds)) ∧
    (r.desc.is_looping = true →
      ∀ (nows : List Int) (cmds : List ControlCommand),
        Routine.run_processes nows r cmds = some (r, cmds)) := by
  constructor
  · intro hloop now cmds
    simp [Routine.process, hrun, hsteps, hloop]
  · intro hloop nows
    induction nows with
    | nil => intro cmds; rfl
    | cons now rest ih =>
      intro cmds
      have hstep : Routine.process now r cmds = some (r, cmds) := by
        simp [Routine.process, hrun, hsteps, hloop]
      simp only [Routine.run_processes, hstep]
      exact ih cmds

/-- A non-looping description with zero steps, for the C8 witness. -/
def c8r : Routine :=
  Routine.new { name := "empty", is_looping := false, steps := [] } 0

/-- A looping description with zero steps, for the C8 witness. -/
def c8rl : Routine :=
  Routine.new { name := "sleep", is_looping := true, steps := [] } 0

/-- Witness for C8: the non-looping empty routine finishes on the first
`process` call emitting nothing; the looping one is untouched by three
calls. -/
theorem routine_empty_steps_behavior_witness :
    Routine.process 5 c8r [] = some ({ c8r with is_finished := true }, []) ∧
    Routine.run_processes [0, 7000000, 9000000] c8rl [] =
      some (c8rl, []) :=
  ⟨(routine_empty_steps_behavior c8r rfl rfl).1 rfl 5 [],
   (routine_empty_steps_behavior c8rl rfl rfl).2 rfl [0, 7000000, 9000000] []⟩

/-! ## C10 -/

/-- One `Routine.process` call appends at most one command: the command
list is either unchanged or extended by exactly one element. -/
lemma process_append_bound (now : Int) (r : Routine)
    (cmds : List ControlCommand) (r2 : Routine)
    (cmds2 : List ControlCommand)
    (h : Routine.process now r cmds = some (r2, cmds2)) :
    cmds2 = cmds ∨ ∃ cmd, cmds2 = cmds ++ [cmd] := by
  unfold Routine.process at h
  by_cases h1 : r.is_finished = true
  · rw [if_pos h1] at h
    simp only [Option.some.injEq, Prod.mk.injEq] at h
    exact Or.inl h.2.symm
  · rw [if_neg h1] at h
    by_cases h2 : r.desc.steps.length = 0
    · rw [if_pos h2] at h
      by_cases h3 : r.desc.is_looping = false
      · rw [if_pos h3] at h
        simp only [Option.some.injEq, Prod.mk.injEq] at h
        exact Or.inl h.2.symm
      · rw [if_neg h3] at h
        simp only [Option.some.injEq, Prod.mk.injEq] at h
        exact Or.inl h.2.symm
    · rw [if_neg h2] at h
      split at h
      · simp at h
      · rename_i step hstep
        by_cases h4 : get_time_since_ms now r.step_start_time < step.delay_ms
        · rw [if_pos h4] at h
          simp only [Option.some.injEq, Prod.mk.injEq] at h
          exact Or.inl h.2.symm
        · rw [if_neg h4] at h
          simp only [Option.some.injEq, Prod.mk.injEq] at h
          exact Or.inr ⟨_, h.2.symm⟩

/-- Over a sequence of `process` calls the command list grows by at most
one element per call. -/
lemma run_processes_length (nows : List Int) :
    ∀ (r : Routine) (cmds : List ControlCommand) (r2 : Routine)
      (cmds2 : List ControlCommand),
    Routine.run_processes nows r cmds = some (r2, cmds2) →
    cmds2.length ≤ cmds.length + nows.length := by
  induction nows with
  | nil =>
    intro r cmds r2 cmds2 h
    simp only [Routine.run_processes, Option.some.injEq,
      Prod.mk.injEq] at h
    simp [← h.2]
  | cons now rest ih =>
    intro r cmds r2 cmds2 h
    rw [show Routine.run_processes (now :: rest) r cmds =
        (match Routine.process now r cmds with
          | none => none
          | some (r3, cmds3) =>
            Routine.run_processes rest r3 cmds3) from rfl] at h
    cases hp : Routine.process now r cmds with
    | none => rw [hp] at h; exact absurd h (by simp)
    | some p =>
      obtain ⟨r3, cmds3⟩ := p
      rw [hp] at h
      have h2 : Routine.run_processes rest r3 cmds3 = some (r2, cmds2) := h
      have hlen := ih r3 cmds3 r2 cmds2 h2
      rcases process_append_bound now r cmds r3 cmds3 hp with rfl | ⟨cmd, rfl⟩
      · simp only [List.length_cons]
        omega
      · simp only [List.length_append, List.length_cons,
          List.length_nil, List.length_cons] at hlen ⊢
        omega

/-- C10.  Every single `Routine.process` call appends at most one
command (the list is unchanged or extended by exactly one element, even
for delay-0 steps: a step never fires within the `process` call that
made it current), so emitting commands over a sequence of calls requires
at least one call per command. -/
theorem routine_process_appends_at_most_one :
    (∀ (now : Int) (r : Routine) (cmds : List ControlCommand)
        (r2 : Routine) (cmds2 : List ControlCommand),
      Routine.process now r cmds = some (r2, cmds2) →
      cmds2 = cmds ∨ ∃ cmd, cmds2 = cmds ++ [cmd]) ∧
    (∀ (nows : List Int) (r : Routine) (cmds : List ControlCommand)
        (r2 : Routine) (cmds2 : List ControlCommand),
      Routine.run_processes nows r cmds = some (r2, cmds2) →
      cmds2.length ≤ cmds.length + nows.length) :=
  ⟨process_append_bound, fun nows => run_processes_length nows⟩

/-- A zero-delay step, for the C10 witness. -/
def c10_step (cn : String) (d : Direction) : Step :=
  { delay_ms := 0, control_name := cn, move_direction := d }

/-- A routine of three zero-delay steps, for the C10 witness. -/
def c10r : Routine :=
  Routine.new
    { name := "zero"
      is_looping := false
      steps := [c10_step "back" Direction.UP, c10_step "legs" Direction.UP,
        c10_step "back" Direction.DOWN] } 0

/-- The command emitted by the first zero-delay step. -/
def c10_cmd1 : ControlCommand :=
  { control_name := "back", direction := Direction.UP, source := "routine" }

/-- The command emitted by the second zero-delay step. -/
def c10_cmd2 : ControlCommand :=
  { control_name := "legs", direction := Direction.UP, source := "routine" }

/-- Witness for C10: processing the zero-delay routine once emits one
command, and two calls emit at most two commands. -/
theorem routine_process_appends_at_most_one_witness :
    ([c10_cmd1] = ([] : List ControlCommand) ∨
      ∃ cmd, [c10_cmd1] = ([] : List ControlCommand) ++ [cmd]) ∧
    ([c10_cmd1, c10_cmd2].length ≤
      ([] : List ControlCommand).length + [0, 0].length) :=
  ⟨routine_process_appends_at_most_one.1 0 c10r []
      { c10r with step_index := 1, step_start_time := 0 }
      [c10_cmd1] (by decide),
   routine_process_appends_at_most_one.2 [0, 0] c10r []
      { c10r with step_index := 2, step_start_time := 0 }
      [c10_cmd1, c10_cmd2] (by decide)⟩

/-! ## C7 -/

/-- The empty routine manager, used for the C7 counterexample. -/
def c7_empty : RoutineManager := { descs := [], routines := [] }

/-- C7 counterexample: `process_command` records the routine event in
the report journal before the start is attempted, so a START on a name
with no loaded description returns the failure notification AND appends
a journal entry — the failure case does not produce only the
notification string. -/
theorem routine_manager_start_failure_journal_counterexample :
    (RoutineManager.process_command c7_empty [] 0
        { routine_name := "wake", action := RoutineAction.START }).1 =
      "There is no wake routine." ∧
    (RoutineManager.process_command c7_empty [] 0
        { routine_name := "wake", action := RoutineAction.START }).2.2 =
      [("wake", "start")] ∧
    ([("wake", "start")] : List (String × String)) ≠ [] :=
  ⟨rfl, rfl, by simp⟩

/-- C7 (amended).  `process_command` on a START action appends a
routine-event journal entry in every case (success or failure); it
returns the no-such-routine notification when the name is neither
running nor loaded, the already-running notification when a routine
with the name is running, and otherwise creates a running Routine and
returns the started notification; in both failure cases the manager
(and so the running-routine count) is unchanged.  A STOP action on a
name that is not running returns the not-running notification and
leaves the manager unchanged (again with a journal entry). -/
theorem routine_manager_process_command_spec (m : RoutineManager)
    (events : List (String × String)) (now : Int) (name : String) :
    ((RoutineManager.process_command m events now
        { routine_name := name, action := RoutineAction.START }).2.2 =
      events ++ [(name, "start")] ∧
     ((m.routines.lookup name).isSome = true →
       RoutineManager.process_command m events now
          { routine_name := name, action := RoutineAction.START } =
        ("The " ++ name ++ " routine is already running.", m,
          events ++ [(name, "start")])) ∧
     ((m.routines.lookup name).isSome = false →
       m.descs.lookup name = none →
       RoutineManager.process_command m events now
          { routine_name := name, action := RoutineAction.START } =
        ("There is no " ++ name ++ " routine.", m,
          events ++ [(name, "start")])) ∧
     (∀ desc : RoutineDesc, (m.routines.lookup name).isSome = false →
       m.descs.lookup name = some desc →
       RoutineManager.process_command m events now
          { routine_name := name, action := RoutineAction.START } =
        ("Started the " ++ name ++ " routine.",
          { m with routines :=
              m.routines ++ [(name, Routine.new desc now)] },
          events ++ [(name, "start")]))) ∧
    ((m.routines.lookup name).isSome = false →
      RoutineManager.process_command m events now
        { routine_name := name, action := RoutineAction.STOP } =
       ("The " ++ name ++ " routine is not running.", m,
         events ++ [(name, "stop")])) := by
  refine ⟨⟨?_, ?_, ?_, ?_⟩, ?_⟩
  · simp [RoutineManager.process_command, RoutineAction.as_string]
  · intro hrun
    simp [RoutineManager.process_command, RoutineManager.start_routine,
      RoutineAction.as_string, hrun]
  · intro hrun hdesc
    simp [RoutineManager.process_command, RoutineManager.start_routine,
      RoutineAction.as_string, hrun, hdesc]
  · intro desc hrun hdesc
    simp [RoutineManager.process_command, RoutineManager.start_routine,
      RoutineAction.as_string, hrun, hdesc]
  · intro hrun
    simp [RoutineManager.process_command, RoutineManager.stop_routine,
      RoutineAction.as_string, hrun]

/-- The description loaded in the C7 witness manager. -/
def c7_desc : RoutineDesc :=
  { name := "wake", is_looping := false, steps := [] }

/-- A manager with the wake description loaded and nothing running, for
the C7 witness. -/
def c7m : RoutineManager := { descs := [("wake", c7_desc)], routines := [] }

/-- Witness for C7 (amended): starting the loaded, not-running wake
routine succeeds, creates the running instance and journals the start
event. -/
theorem routine_manager_process_command_spec_witness :
    RoutineManager.process_command c7m [] 0
        { routine_name := "wake", action := RoutineAction.START } =
      ("Started the wake routine.",
        { c7m with routines := c7m.routines ++ [("wake", Routine.new c7_desc 0)] },
        [] ++ [("wake", "start")]) :=
  (routine_manager_process_command_spec c7m [] 0 "wake").1.2.2.2 c7_desc
    (by decide) (by decide)

end Sandman
